import Mathlib

/-!
Verification development for the File-Analysis-Tool repository
(`src/file-system-info/file_system_info.py`).

The program has two stages: a scanner (`get_file_info`) that walks a root
directory producing one record per file plus a `treelib` tree, and a reporter
(`display_results`) that groups the records with pandas and renders charts /
writes a PDF.  We embed these shallowly:

* the filesystem primitives `os.path.exists`, `os.walk`, `os.path.getsize`
  and `mimetypes.guess_type` become fields of an abstract `FileSystem` value;
* Python's `round(x, 2)` on `file_size / 1024` is modelled exactly over `ℚ`
  with round-half-to-even (Python's rounding mode);
* the pandas groupings (`groupby(...).sum()`, `value_counts()`) become
  key-indexed sums/counts over the record list;
* effects of the reporter are reified: `display_results` returns `none`
  (the "No files found" early return) or the rendered groupings and the
  record list handed to the PDF writer.
-/

/-- One entry of `file_data`: the dict built at
`file_system_info.py` lines 27-32. -/
structure FileRecord where
  folder : String
  name : String
  sizeKb : ℚ
  fileType : String
deriving Repr, DecidableEq

/-- One `treelib` node: `create_node(tag, identifier, parent)`. -/
structure TreeNode where
  tag : String
  id : String
  parent : Option String
deriving Repr, DecidableEq

/-- Round a rational to the nearest integer, ties to even: the rounding mode
of Python's builtin `round`. -/
def roundHalfEven (q : ℚ) : ℤ :=
  if q - ⌊q⌋ < 1/2 then ⌊q⌋
  else if 1/2 < q - ⌊q⌋ then ⌊q⌋ + 1
  else if ⌊q⌋ % 2 = 0 then ⌊q⌋ else ⌊q⌋ + 1

/-- Python's `round(q, 2)`: round to 2 decimal places, ties to even. -/
def round2 (q : ℚ) : ℚ := (roundHalfEven (q * 100) : ℚ) / 100

/-- `os.path.join(root, file)` for a simple file name. -/
def joinPath (root file : String) : String := root ++ "/" ++ file

/-- Abstract model of the filesystem primitives the scanner calls:
`pathExists` is `os.path.exists(directory)`; `walk` is the sequence of
`(root, files)` pairs yielded by `os.walk(directory)` (the `dirs` component
is discarded by the source, so it is omitted); `getsize` is
`os.path.getsize`; `guessType` is the first component of
`mimetypes.guess_type` (`none` when the lookup yields no type). -/
structure FileSystem where
  pathExists : Bool
  walk : List (String × List String)
  getsize : String → ℕ
  guessType : String → Option String

/-- The record built for one file in the inner loop of `get_file_info`
(lines 23-32): `file_path = os.path.join(root, file)`,
`file_size = os.path.getsize(file_path)`,
`file_type, _ = mimetypes.guess_type(file_path)`, and the appended dict with
`round(file_size / 1024, 2)` and `str(file_type) if file_type else "Unknown"`.
Python's truthiness test makes both `None` and the empty string fall back to
`"Unknown"`. -/
def mkRecord (fs : FileSystem) (root file : String) : FileRecord :=
  let path := joinPath root file
  let size := fs.getsize path
  let mime := fs.guessType path
  { folder := root
    name := file
    sizeKb := round2 ((size : ℚ) / 1024)
    fileType :=
      match mime with
      | some t => if t = "" then "Unknown" else t
      | none => "Unknown" }

/-- The tree update for one file in the inner loop (lines 34-36): add a node
for the containing folder under the scanned root if absent, then a leaf for
the file keyed by its full path. -/
def addTreeNodes (directory : String) (tree : List TreeNode)
    (root file : String) : List TreeNode :=
  let tree :=
    if tree.any (fun n => n.id = root) then tree
    else tree ++ [⟨root, root, some directory⟩]
  tree ++ [⟨file, joinPath root file, some root⟩]

/-- One iteration of the inner loop body of `get_file_info` (lines 22-36):
append the file's record to `file_data` and update `file_structure`. -/
def scanStep (fs : FileSystem) (directory : String)
    (st : List FileRecord × List TreeNode) (root file : String) :
    List FileRecord × List TreeNode :=
  (st.1 ++ [mkRecord fs root file], addTreeNodes directory st.2 root file)

/-- The (root, file) pairs visited by the nested `for root, _, files` /
`for file in files` loops, in order. -/
def walkPairs (fs : FileSystem) : List (String × String) :=
  fs.walk.flatMap (fun rf => rf.2.map (fun f => (rf.1, f)))

/-- The record list `file_data` produced by a scan whose existence check has
passed: one record per walked file, in walk order. -/
def scanRecords (fs : FileSystem) : List FileRecord :=
  (walkPairs fs).map (fun rf => mkRecord fs rf.1 rf.2)

/-- The tree `file_structure` produced by a scan whose existence check has
passed: the root node (line 19) followed by the nodes added by the loop. -/
def scanTree (fs : FileSystem) (directory : String) : List TreeNode :=
  (walkPairs fs).foldl (fun tree rf => addTreeNodes directory tree rf.1 rf.2)
    [⟨directory, directory, none⟩]

/-- `get_file_info(directory)` (lines 10-38): raise `FileNotFoundError` when
the path does not exist (lines 14-15), otherwise run the nested walk loop
starting from the empty `file_data` and the tree holding only the root node,
and return `(file_data, file_structure)`. -/
def get_file_info (fs : FileSystem) (directory : String) :
    Except String (List FileRecord × List TreeNode) :=
  if fs.pathExists = false then
    Except.error
      "The specified file path does not exist. Please provide a valid directory."
  else
    Except.ok <|
      fs.walk.foldl
        (fun st rf => rf.2.foldl (fun st f => scanStep fs directory st rf.1 f) st)
        ([], [⟨directory, directory, none⟩])

/-- Sum of `val` over the records whose `key` equals `k`: the entry at key
`k` of a pandas `df.groupby(key)[val].sum()` grouping. -/
def groupSum {M : Type} [AddCommMonoid M]
    (key : FileRecord → String) (val : FileRecord → M)
    (rs : List FileRecord) (k : String) : M :=
  ((rs.filter (fun r => key r = k)).map val).sum

/-- `df.groupby("File Type")['File Size (KB)'].sum()` (line 92). -/
def file_size_by_type (rs : List FileRecord) : String → ℚ :=
  groupSum (fun r => r.fileType) (fun r => r.sizeKb) rs

/-- `df["Folder"].value_counts()` (line 97). -/
def folder_count (rs : List FileRecord) (k : String) : ℕ :=
  (rs.filter (fun r => r.folder = k)).length

/-- `df["File Type"].value_counts()` (line 102). -/
def file_type_count (rs : List FileRecord) (k : String) : ℕ :=
  (rs.filter (fun r => r.fileType = k)).length

/-- `df.groupby("Folder")['File Size (KB)'].sum()` (line 107). -/
def folder_size (rs : List FileRecord) : String → ℚ :=
  groupSum (fun r => r.folder) (fun r => r.sizeKb) rs

/-- `df.groupby("File Type")['File Size (KB)'].sum()` again (line 112), for
the fifth chart. -/
def type_size_dist (rs : List FileRecord) : String → ℚ :=
  groupSum (fun r => r.fileType) (fun r => r.sizeKb) rs

/-- The distinct `File Type` keys of the record list: the key set of the
type-indexed groupings. -/
def typeKeys (rs : List FileRecord) : Finset String :=
  (rs.map (fun r => r.fileType)).toFinset

/-- The distinct `Folder` keys of the record list: the key set of the
folder-indexed groupings. -/
def folderKeys (rs : List FileRecord) : Finset String :=
  (rs.map (fun r => r.folder)).toFinset

/-- The observable output of `display_results` when records are present:
the five groupings charted at lines 92-113 and the record list handed to
`save_pdf_report` (line 116). -/
structure RenderedReport where
  chart1_size_by_type : String → ℚ
  chart2_folder_count : String → ℕ
  chart3_type_count : String → ℕ
  chart4_folder_size : String → ℚ
  chart5_type_size : String → ℚ
  pdfRecords : List FileRecord

/-- `display_results(file_data, file_structure)` (lines 61-117), with its
effects reified: when the dataframe is empty it prints "No files found in
the specified directory." and returns (`none`) before any window, chart or
PDF; otherwise it renders the five groupings and writes the PDF of all
records (`some`). -/
def display_results (rs : List FileRecord) : Option RenderedReport :=
  if rs.isEmpty then none
  else
    some
      { chart1_size_by_type := file_size_by_type rs
        chart2_folder_count := folder_count rs
        chart3_type_count := file_type_count rs
        chart4_folder_size := folder_size rs
        chart5_type_size := type_size_dist rs
        pdfRecords := rs }

/-! ## Concrete test fixtures

Small filesystem models matching the spec's scenarios, used to instantiate
the theorems at concrete inputs. -/

/-- The spec's scenario: a directory `d` containing one 2048-byte `.txt`
file and one 512-byte file of unknown type. -/
def sampleFS : FileSystem where
  pathExists := true
  walk := [("d", ["a.txt", "b"])]
  getsize := fun p => if p = "d/a.txt" then 2048 else 512
  guessType := fun p => if p = "d/a.txt" then some "text/plain" else none

/-- An existing directory containing no files. -/
def emptyDirFS : FileSystem where
  pathExists := true
  walk := [("d", [])]
  getsize := fun _ => 0
  guessType := fun _ => none

/-- A path that does not exist. -/
def missingFS : FileSystem where
  pathExists := false
  walk := []
  getsize := fun _ => 0
  guessType := fun _ => none

/-- A path that exists but is a regular file, not a directory:
`os.path.exists` is true and `os.walk` yields no triples. -/
def fileOnlyFS : FileSystem where
  pathExists := true
  walk := []
  getsize := fun _ => 0
  guessType := fun _ => none

/-- The record the scan builds for the 2048-byte text file of `sampleFS`. -/
def recA : FileRecord := mkRecord sampleFS "d" "a.txt"

/-- The record the scan builds for the 512-byte unknown-type file of
`sampleFS`. -/
def recB : FileRecord := mkRecord sampleFS "d" "b"

/-! ## Bridging lemmas: the nested scan loop in factored form -/

/-- The scan's record accumulator and tree accumulator evolve
independently: folding the loop body over walked pairs appends the mapped
records on the first component and folds the tree updates on the second. -/
lemma scan_fold_eq (fs : FileSystem) (d : String) :
    ∀ (l : List (String × String)) (data : List FileRecord)
      (tree : List TreeNode),
      l.foldl
          (fun st p =>
            (st.1 ++ [mkRecord fs p.1 p.2], addTreeNodes d st.2 p.1 p.2))
          (data, tree) =
        (data ++ l.map (fun p => mkRecord fs p.1 p.2),
          l.foldl (fun t p => addTreeNodes d t p.1 p.2) tree)
  | [], data, tree => by simp
  | p :: l, data, tree => by
      simp only [List.foldl_cons, List.map_cons]
      rw [scan_fold_eq fs d l (data ++ [mkRecord fs p.1 p.2])]
      simp

/-- The nested walk loop is a single fold over the walked (root, file)
pairs. -/
lemma nested_foldl_eq_walkPairs_foldl {σ : Type} (fs : FileSystem)
    (h : σ → String → String → σ) :
    ∀ (l : List (String × List String)) (init : σ),
      l.foldl (fun st rf => rf.2.foldl (fun st f => h st rf.1 f) st) init =
        (l.flatMap (fun rf => rf.2.map (fun f => (rf.1, f)))).foldl
          (fun st p => h st p.1 p.2) init
  | [], _ => rfl
  | rf :: l, init => by
      simp only [List.foldl_cons, List.flatMap_cons, List.foldl_append,
        List.foldl_map]
      exact nested_foldl_eq_walkPairs_foldl fs h l _

/-- When the existence check passes, `get_file_info` returns exactly the
factored record list and tree. -/
lemma get_file_info_ok (fs : FileSystem) (d : String)
    (h : fs.pathExists = true) :
    get_file_info fs d = Except.ok (scanRecords fs, scanTree fs d) := by
  unfold get_file_info
  rw [h]
  simp only [Bool.true_eq_false, if_false]
  congr 1
  unfold scanStep
  rw [nested_foldl_eq_walkPairs_foldl fs
    (fun st root f => (st.1 ++ [mkRecord fs root f], addTreeNodes d st.2 root f))]
  rw [scan_fold_eq fs d (fs.walk.flatMap fun rf => List.map (fun f => (rf.1, f)) rf.2)]
  simp only [List.nil_append]
  rfl

/-! ## Rounding lemmas -/

/-- Round-half-to-even moves a rational by at most 1/2. -/
lemma abs_roundHalfEven_sub_le (q : ℚ) : |(roundHalfEven q : ℚ) - q| ≤ 1/2 := by
  have hfl : (⌊q⌋ : ℚ) ≤ q := Int.floor_le q
  have hlt : q < ⌊q⌋ + 1 := Int.lt_floor_add_one q
  unfold roundHalfEven
  split_ifs with h1 h2 h3
  · rw [abs_le]; constructor <;> linarith
  · rw [abs_le]; push_cast; constructor <;> linarith
  · rw [abs_le]; constructor <;> linarith
  · rw [abs_le]; push_cast; constructor <;> linarith

/-- Round-half-to-even of a non-negative rational is non-negative. -/
lemma roundHalfEven_nonneg (q : ℚ) (h : 0 ≤ q) : 0 ≤ roundHalfEven q := by
  have hfl : 0 ≤ ⌊q⌋ := Int.floor_nonneg.mpr h
  unfold roundHalfEven
  split_ifs <;> omega

/-- `round2` moves a rational by at most half of the last kept decimal. -/
lemma abs_round2_sub_le (q : ℚ) : |round2 q - q| ≤ 1/200 := by
  have h := abs_roundHalfEven_sub_le (q * 100)
  unfold round2
  have heq : (roundHalfEven (q * 100) : ℚ) / 100 - q =
      ((roundHalfEven (q * 100) : ℚ) - q * 100) / 100 := by ring
  rw [heq, abs_div, abs_of_pos (show (0:ℚ) < 100 by norm_num)]
  linarith

/-- `round2` of a non-negative rational is non-negative. -/
lemma round2_nonneg (q : ℚ) (h : 0 ≤ q) : 0 ≤ round2 q := by
  have := roundHalfEven_nonneg (q * 100) (by positivity)
  unfold round2
  positivity

/-! ## Aggregation lemmas -/

/-- Summing a grouping over any key set covering the records recovers the
ungrouped total: nothing is dropped or double-counted. -/
lemma sum_groupSum {M : Type} [AddCommMonoid M] (key : FileRecord → String)
    (val : FileRecord → M) :
    ∀ (rs : List FileRecord) (T : Finset String),
      (∀ r ∈ rs, key r ∈ T) →
      (∑ t ∈ T, groupSum key val rs t) = (rs.map val).sum
  | [], T, _ => by simp [groupSum]
  | r :: rs, T, hT => by
      have hr : key r ∈ T := hT r (List.mem_cons_self r rs)
      have ih := sum_groupSum key val rs T
        (fun x hx => hT x (List.mem_cons_of_mem r hx))
      have step : ∀ t, groupSum key val (r :: rs) t =
          (if key r = t then val r else 0) + groupSum key val rs t := by
        intro t
        unfold groupSum
        by_cases h : key r = t
        · simp [List.filter_cons, h]
        · simp [List.filter_cons, h]
      simp only [step]
      rw [Finset.sum_add_distrib, ih, Finset.sum_ite_eq T (key r) (fun _ => val r)]
      simp [hr]

/-- Mapping the constant 1 and summing counts the list. -/
lemma sum_map_one {α : Type} :
    ∀ (l : List α), (l.map (fun _ => (1:ℕ))).sum = l.length
  | [] => rfl
  | _ :: l => by
      simp only [List.map_cons, List.sum_cons, List.length_cons, sum_map_one l]
      omega

/-- `value_counts` at a key is the constant-1 grouping at that key. -/
lemma file_type_count_eq_groupSum (rs : List FileRecord) (k : String) :
    file_type_count rs k =
      groupSum (fun r => r.fileType) (fun _ => (1:ℕ)) rs k := by
  unfold file_type_count groupSum
  rw [sum_map_one]

/-- `value_counts` at a key is the constant-1 grouping at that key. -/
lemma folder_count_eq_groupSum (rs : List FileRecord) (k : String) :
    folder_count rs k =
      groupSum (fun r => r.folder) (fun _ => (1:ℕ)) rs k := by
  unfold folder_count groupSum
  rw [sum_map_one]

/-- Permuting the records permutes each grouping fiber, so grouped sums are
unchanged. -/
lemma groupSum_perm {M : Type} [AddCommMonoid M] (key : FileRecord → String)
    (val : FileRecord → M) {rs rt : List FileRecord}
    (h : rs.Perm rt) (k : String) :
    groupSum key val rs k = groupSum key val rt k :=
  ((h.filter (fun r => decide (key r = k))).map val).sum_eq

/-! ## Summation error lemmas -/

/-- A pointwise absolute error bound sums to a length-scaled bound. -/
lemma abs_list_sum_sub_sum_le {α : Type} (f g : α → ℚ) (c : ℚ) :
    ∀ (l : List α), (∀ a ∈ l, |f a - g a| ≤ c) →
      |(l.map f).sum - (l.map g).sum| ≤ l.length * c
  | [], _ => by simp
  | a :: l, h => by
      have h1 := h a (List.mem_cons_self a l)
      have h2 := abs_list_sum_sub_sum_le f g c l
        (fun x hx => h x (List.mem_cons_of_mem a hx))
      simp only [List.map_cons, List.sum_cons, List.length_cons]
      have heq : (f a + (l.map f).sum) - (g a + (l.map g).sum) =
          (f a - g a) + ((l.map f).sum - (l.map g).sum) := by ring
      rw [heq]
      simp only [Nat.cast_add, Nat.cast_one]
      calc |(f a - g a) + ((l.map f).sum - (l.map g).sum)|
          ≤ |f a - g a| + |(l.map f).sum - (l.map g).sum| := abs_add _ _
        _ ≤ c + l.length * c := add_le_add h1 h2
        _ = ((l.length : ℚ) + 1) * c := by ring

/-- Division by a constant moves out of a mapped sum. -/
lemma sum_map_div {α : Type} (u : α → ℚ) (c : ℚ) :
    ∀ (l : List α), (l.map (fun a => u a / c)).sum = (l.map u).sum / c
  | [] => by simp
  | a :: l => by
      simp only [List.map_cons, List.sum_cons, sum_map_div u c l]
      ring

/-! ## Claim theorems -/

/-- C1: aggregation is a (pure) function of the record sequence and
conserves totals: summing the size-by-type and size-by-folder groupings over
their key sets gives the total `size_kb`, and summing each count grouping
over its key set gives the number of records — no record dropped or
double-counted. -/
theorem c1_aggregation_conserves_totals (rs : List FileRecord) :
    (∑ t ∈ typeKeys rs, file_size_by_type rs t) =
        (rs.map (fun r => r.sizeKb)).sum ∧
    (∑ k ∈ folderKeys rs, folder_size rs k) =
        (rs.map (fun r => r.sizeKb)).sum ∧
    (∑ t ∈ typeKeys rs, file_type_count rs t) = rs.length ∧
    (∑ k ∈ folderKeys rs, folder_count rs k) = rs.length := by
  have hT : ∀ r ∈ rs, r.fileType ∈ typeKeys rs := by
    intro r hr
    simp only [typeKeys, List.mem_toFinset, List.mem_map]
    exact ⟨r, hr, rfl⟩
  have hF : ∀ r ∈ rs, r.folder ∈ folderKeys rs := by
    intro r hr
    simp only [folderKeys, List.mem_toFinset, List.mem_map]
    exact ⟨r, hr, rfl⟩
  refine ⟨?_, ?_, ?_, ?_⟩
  · exact sum_groupSum _ _ rs (typeKeys rs) hT
  · exact sum_groupSum _ _ rs (folderKeys rs) hF
  · simp only [file_type_count_eq_groupSum]
    rw [sum_groupSum _ _ rs (typeKeys rs) hT, sum_map_one]
  · simp only [folder_count_eq_groupSum]
    rw [sum_groupSum _ _ rs (folderKeys rs) hF, sum_map_one]

/-- C2: for a path that does not exist, the scan raises the not-found error
before any traversal or aggregation: the result is the error value, carrying
no records and no tree. -/
theorem c2_not_found_raises_before_traversal (fs : FileSystem) (d : String)
    (h : fs.pathExists = false) :
    get_file_info fs d =
      Except.error
        "The specified file path does not exist. Please provide a valid directory." := by
  simp [get_file_info, h]

/-- Witness for C2 at the concrete missing path. -/
theorem c2_witness :
    get_file_info missingFS "/nope" =
      Except.error
        "The specified file path does not exist. Please provide a valid directory." :=
  c2_not_found_raises_before_traversal missingFS "/nope" rfl

/-- C3: for an existing directory, the scan succeeds with exactly one record
per walked regular file, and the total `size_kb` times 1024 is within the
accumulated rounding tolerance (half of the last kept decimal, i.e. 5.12
bytes, per file) of the true total byte count. -/
theorem c3_one_record_per_file_and_size_total (fs : FileSystem) (d : String)
    (h : fs.pathExists = true) :
    get_file_info fs d = Except.ok (scanRecords fs, scanTree fs d) ∧
    (scanRecords fs).length = (walkPairs fs).length ∧
    |((scanRecords fs).map (fun r => r.sizeKb)).sum * 1024 -
        ((walkPairs fs).map
          (fun p => (fs.getsize (joinPath p.1 p.2) : ℚ))).sum| ≤
      ((walkPairs fs).length : ℚ) * (128/25) := by
  refine ⟨get_file_info_ok fs d h, by simp [scanRecords], ?_⟩
  have hb := abs_list_sum_sub_sum_le
    (fun p : String × String => (mkRecord fs p.1 p.2).sizeKb)
    (fun p => (fs.getsize (joinPath p.1 p.2) : ℚ) / 1024)
    (1/200) (walkPairs fs)
    (by intro p _
        simpa [mkRecord] using
          abs_round2_sub_le ((fs.getsize (joinPath p.1 p.2) : ℚ) / 1024))
  rw [sum_map_div] at hb
  have hkey : ((scanRecords fs).map (fun r => r.sizeKb)).sum =
      ((walkPairs fs).map (fun p => (mkRecord fs p.1 p.2).sizeKb)).sum := by
    simp only [scanRecords, List.map_map]
    rfl
  rw [hkey]
  have h2 : ((walkPairs fs).map (fun p => (mkRecord fs p.1 p.2).sizeKb)).sum
        * 1024 -
      ((walkPairs fs).map
        (fun p => (fs.getsize (joinPath p.1 p.2) : ℚ))).sum =
      1024 * (((walkPairs fs).map
          (fun p => (mkRecord fs p.1 p.2).sizeKb)).sum -
        ((walkPairs fs).map
          (fun p => (fs.getsize (joinPath p.1 p.2) : ℚ))).sum / 1024) := by
    ring
  rw [h2, abs_mul, abs_of_pos (show (0:ℚ) < 1024 by norm_num)]
  linarith

/-- Witness for C3 at the two-file sample directory. -/
theorem c3_witness :
    get_file_info sampleFS "d" =
        Except.ok (scanRecords sampleFS, scanTree sampleFS "d") ∧
    (scanRecords sampleFS).length = (walkPairs sampleFS).length ∧
    |((scanRecords sampleFS).map (fun r => r.sizeKb)).sum * 1024 -
        ((walkPairs sampleFS).map
          (fun p => (sampleFS.getsize (joinPath p.1 p.2) : ℚ))).sum| ≤
      ((walkPairs sampleFS).length : ℚ) * (128/25) :=
  c3_one_record_per_file_and_size_total sampleFS "d" rfl

/-- A successful scan result is exactly the factored record list. -/
lemma ok_records_eq_scanRecords (fs : FileSystem) (d : String)
    (rs : List FileRecord) (tr : List TreeNode)
    (hok : get_file_info fs d = Except.ok (rs, tr)) :
    rs = scanRecords fs := by
  cases hex : fs.pathExists with
  | false =>
      unfold get_file_info at hok
      rw [hex] at hok
      simp at hok
  | true =>
      rw [get_file_info_ok fs d hex] at hok
      simp only [Except.ok.injEq, Prod.mk.injEq] at hok
      exact hok.1.symm

/-- C4: every record's `size_kb` equals the file's byte size divided by
1024 and rounded to 2 decimal places, and is non-negative. -/
theorem c4_size_kb_rounded_nonneg (fs : FileSystem) (d : String)
    (rs : List FileRecord) (tr : List TreeNode)
    (hok : get_file_info fs d = Except.ok (rs, tr)) :
    ∀ r ∈ rs,
      r.sizeKb = round2 ((fs.getsize (joinPath r.folder r.name) : ℚ) / 1024) ∧
      0 ≤ r.sizeKb := by
  intro r hr
  rw [ok_records_eq_scanRecords fs d rs tr hok] at hr
  obtain ⟨p, _, rfl⟩ := List.mem_map.mp hr
  refine ⟨by simp [mkRecord], ?_⟩
  have hq : (0:ℚ) ≤ (fs.getsize (joinPath p.1 p.2) : ℚ) / 1024 := by positivity
  simpa [mkRecord] using round2_nonneg _ hq

/-- Witness for C4 at the 2048-byte text file of the sample directory. -/
theorem c4_witness :
    recA.sizeKb =
        round2 ((sampleFS.getsize (joinPath recA.folder recA.name) : ℚ) / 1024) ∧
    0 ≤ recA.sizeKb :=
  c4_size_kb_rounded_nonneg sampleFS "d" (scanRecords sampleFS)
    (scanTree sampleFS "d") (get_file_info_ok sampleFS "d" rfl)
    recA (List.Mem.head _)

/-- C5: every record's type is either the string returned by the type-guess
lookup or the literal "Unknown", never empty; when the lookup yields no
type, it is "Unknown". -/
theorem c5_type_recognized_or_unknown (fs : FileSystem) (d : String)
    (rs : List FileRecord) (tr : List TreeNode)
    (hok : get_file_info fs d = Except.ok (rs, tr)) :
    ∀ r ∈ rs,
      r.fileType ≠ "" ∧
      (fs.guessType (joinPath r.folder r.name) = none →
        r.fileType = "Unknown") ∧
      (r.fileType = "Unknown" ∨
        fs.guessType (joinPath r.folder r.name) = some r.fileType) := by
  intro r hr
  rw [ok_records_eq_scanRecords fs d rs tr hok] at hr
  obtain ⟨p, _, rfl⟩ := List.mem_map.mp hr
  cases hm : fs.guessType (joinPath p.1 p.2) with
  | none =>
      refine ⟨?_, ?_, Or.inl ?_⟩ <;> simp [mkRecord, hm]
  | some t =>
      by_cases ht : t = ""
      · refine ⟨?_, ?_, Or.inl ?_⟩ <;> simp [mkRecord, hm, ht]
      · refine ⟨?_, ?_, Or.inr ?_⟩ <;> simp [mkRecord, hm, ht]

/-- Witness for C5 at the unknown-type file of the sample directory. -/
theorem c5_witness :
    recB.fileType ≠ "" ∧
    (sampleFS.guessType (joinPath recB.folder recB.name) = none →
      recB.fileType = "Unknown") ∧
    (recB.fileType = "Unknown" ∨
      sampleFS.guessType (joinPath recB.folder recB.name) = some recB.fileType) :=
  c5_type_recognized_or_unknown sampleFS "d" (scanRecords sampleFS)
    (scanTree sampleFS "d") (get_file_info_ok sampleFS "d" rfl)
    recB (List.Mem.tail _ (List.Mem.head _))

/-- Walking folders that all contain no files yields no (root, file)
pairs. -/
lemma flatMap_files_nil :
    ∀ (l : List (String × List String)), (∀ rf ∈ l, rf.2 = []) →
      l.flatMap (fun rf => rf.2.map (fun f => (rf.1, f))) = []
  | [], _ => rfl
  | rf :: l, h => by
      have h1 := h rf (List.mem_cons_self rf l)
      have h2 := flatMap_files_nil l
        (fun x hx => h x (List.mem_cons_of_mem rf hx))
      simp [h1, h2]

/-- C6: scanning an existing directory that contains no files returns the
empty record sequence (and the root-only tree) without raising. -/
theorem c6_empty_directory_empty_records (fs : FileSystem) (d : String)
    (h : fs.pathExists = true) (hempty : ∀ rf ∈ fs.walk, rf.2 = []) :
    get_file_info fs d = Except.ok ([], [⟨d, d, none⟩]) := by
  have hwp : walkPairs fs = [] := by
    unfold walkPairs
    exact flatMap_files_nil fs.walk hempty
  rw [get_file_info_ok fs d h]
  unfold scanRecords scanTree
  rw [hwp]
  rfl

/-- Witness for C6 at the concrete empty directory. -/
theorem c6_witness :
    get_file_info emptyDirFS "d" = Except.ok ([], [⟨"d", "d", none⟩]) :=
  c6_empty_directory_empty_records emptyDirFS "d" rfl (by decide)

/-- C7: each of the four aggregate groupings gives the same value at every
key on any permutation of the record sequence. -/
theorem c7_groupings_permutation_invariant (rs rt : List FileRecord)
    (h : rs.Perm rt) (k : String) :
    file_size_by_type rs k = file_size_by_type rt k ∧
    folder_count rs k = folder_count rt k ∧
    file_type_count rs k = file_type_count rt k ∧
    folder_size rs k = folder_size rt k := by
  refine ⟨groupSum_perm _ _ h k, ?_, ?_, groupSum_perm _ _ h k⟩
  · unfold folder_count
    exact (h.filter _).length_eq
  · unfold file_type_count
    exact (h.filter _).length_eq

/-- Witness for C7 on the swapped two-record sample list. -/
theorem c7_witness :
    file_size_by_type [recA, recB] "text/plain" =
        file_size_by_type [recB, recA] "text/plain" ∧
    folder_count [recA, recB] "text/plain" =
        folder_count [recB, recA] "text/plain" ∧
    file_type_count [recA, recB] "text/plain" =
        file_type_count [recB, recA] "text/plain" ∧
    folder_size [recA, recB] "text/plain" =
        folder_size [recB, recA] "text/plain" :=
  c7_groupings_permutation_invariant [recA, recB] [recB, recA]
    (List.Perm.swap recB recA []) "text/plain"

/-- C8: handed an empty record sequence, the reporter prints the
"no files found" notice and returns at once: no window, no chart, no PDF
(the `none` outcome). -/
theorem c8_empty_records_short_circuit (rs : List FileRecord)
    (h : rs = []) : display_results rs = none := by
  rw [h]
  rfl

/-- Witness for C8 at the empty record list. -/
theorem c8_witness : display_results [] = none :=
  c8_empty_records_short_circuit [] rfl

/-- C9: the fifth aggregate view (size by type for the second chart,
line 112) is the same key-to-value mapping as the first (line 92). -/
theorem c9_fifth_view_equals_first (rs : List FileRecord) :
    type_size_dist rs = file_size_by_type rs := rfl

/-- C10: a path that exists but is a regular file passes the existence
check, the walk visits nothing, and the scan returns the empty record
sequence with the tree holding only the root node named after the path. -/
theorem c10_regular_file_root_only (fs : FileSystem) (d : String)
    (h : fs.pathExists = true) (hwalk : fs.walk = []) :
    get_file_info fs d = Except.ok ([], [⟨d, d, none⟩]) := by
  rw [get_file_info_ok fs d h]
  unfold scanRecords scanTree walkPairs
  rw [hwalk]
  rfl

/-- Witness for C10 at the concrete regular-file path. -/
theorem c10_witness :
    get_file_info fileOnlyFS "f.txt" =
      Except.ok ([], [⟨"f.txt", "f.txt", none⟩]) :=
  c10_regular_file_root_only fileOnlyFS "f.txt" rfl rfl
